import Mathlib

/-!
Verification of the MCP Gateway core (files `gateway.py` and
`gateway_mcp_server.py`): a shallow embedding of the dispatch,
discovery-caching and description-synthesis engine, with theorems settling
the spec's claims about it.

Modelling conventions:

* The external ProtocolClient collaborator is abstracted: each point where
  the Python code opens a `Client` connection and performs one upstream call
  takes the outcome of that call as an `Except String _` argument (the
  `error` carries the stringified Python exception `e`).  Each such point
  also reports how many upstream "enumerate operations" calls it performed
  (`discoveryCalls`), mirroring exactly the `async with Client(...)` blocks
  of the source.
* Python `dict` state (`self.servers`, `self._tools_cache`, and the
  CallableRegistry of registered tools) is modelled as an association list
  with Python-dict insert semantics (`dictInsert`): overwrite in place on an
  existing key, append otherwise.
* Upstream tool descriptors have an optional description (`None` in
  Python); Python's falsy test `t.description or '无描述'` treats both
  `None` and the empty string as absent (`pyOrDefault`).
* A call result (`_extract_content`'s argument) exposes an optional
  `content` list of items (absent models `not hasattr(result, 'content')`);
  each item optionally exposes a `text` field and a `data` field
  (`dataStr` holds `str(item.data)`), and `strForm` holds the generic
  `str(...)` form.
* Exceptions never escape the dispatch path in the source (every upstream
  interaction is wrapped in `try`/`except` returning a string); the
  embedding is correspondingly total: every dispatch function returns a
  `String`.
-/

/-- An upstream operation descriptor as returned by the ProtocolClient's
enumerate-operations call: a name and an optional description. -/
structure Tool where
  name : String
  description : Option String
deriving Repr, DecidableEq

/-- Structured parameters of a dispatch call (`params: dict[str, Any]`).
The gateway never inspects params; it only forwards them, so the value
type of the map is immaterial and fixed to `String`. -/
abbrev Params := List (String × String)

/-- One content item of an upstream call result.  `text = some s` models
`hasattr(item, 'text')` with value `s`; `dataStr = some d` models
`hasattr(item, 'data')` with `str(item.data) = d`; `strForm` is
`str(item)`. -/
structure ContentItem where
  text : Option String
  dataStr : Option String
  strForm : String
deriving Repr, DecidableEq

/-- An upstream call result.  `content = none` models a result without a
`content` attribute; `strForm` is `str(result)`. -/
structure CallResult where
  content : Option (List ContentItem)
  strForm : String
deriving Repr, DecidableEq

/-- Python `s or default` for an optional string attribute: both `None`
and the empty string are falsy. -/
def pyOrDefault (s : Option String) (dflt : String) : String :=
  match s with
  | some d => if d = "" then dflt else d
  | none => dflt

/-- Lookup in a Python-dict model (association list). -/
def dictLookup (k : String) : List (String × α) → Option α
  | [] => none
  | (k', v) :: rest => if k' = k then some v else dictLookup k rest

/-- Insert in a Python-dict model: overwrite in place if the key exists,
append otherwise (Python dicts keep the original insertion position on
overwrite). -/
def dictInsert (k : String) (v : α) : List (String × α) → List (String × α)
  | [] => [(k, v)]
  | (k', v') :: rest =>
    if k' = k then (k, v) :: rest else (k', v') :: dictInsert k v rest

/-- Number of entries stored under a key. -/
def countKey (k : String) (m : List (String × α)) : Nat :=
  (m.filter (fun p => p.1 = k)).length

/-- `str_begins s pre` : does `s` start with `pre`? -/
def str_begins (s pre : String) : Bool :=
  pre.data.isPrefixOf s.data

/-- Does `pat` occur as a contiguous sublist of `s`? -/
def subOccurs (pat : List Char) : List Char → Bool
  | [] => pat.isPrefixOf []
  | c :: rest => pat.isPrefixOf (c :: rest) || subOccurs pat rest

/-- `occursIn pat s` : does the pattern `pat` occur inside `s`? -/
def occursIn (pat s : String) : Bool :=
  subOccurs pat.data s.data

/-- Python's `"\n".join(parts)`. -/
def join_lines : List String → String
  | [] => ""
  | [x] => x
  | x :: y :: xs => x ++ "\n" ++ join_lines (y :: xs)

/-- Python's `s.strip()`: drop whitespace from both ends (character
level). -/
def py_strip (s : String) : String :=
  ⟨((s.data.dropWhile Char.isWhitespace).reverse.dropWhile
      Char.isWhitespace).reverse⟩

/-- Python's `s.split('\n')[0]`: the prefix of `s` before the first
newline (all of `s` when it has none). -/
def first_line (s : String) : String :=
  ⟨s.data.takeWhile (fun c => c ≠ '\n')⟩

/-- Python's `s[:n]`: the first `n` characters (code points). -/
def py_take (s : String) (n : Nat) : String :=
  ⟨s.data.take n⟩

/-- Subsystem configuration (`ServerConfig`).  `tools` is the short-form
operation-summary list filled by startup discovery in
`gateway_mcp_server.py`; `gateway.py`'s variant lacks this field, and the
functions embedded from that file never read it. -/
structure ServerConfig where
  name : String
  command : String
  args : List String
  env : List (String × String)
  tools : List String
deriving Repr, DecidableEq

/-- The long-form operation summary `f"{t.name}: {t.description or '无描述'}"`
cached into `_tools_cache` (identical in both files). -/
def long_form (t : Tool) : String :=
  t.name ++ ": " ++ pyOrDefault t.description "无描述"

/-- The first line of the (defaulted, stripped) upstream description:
`(t.description or "无描述").strip().split('\n')[0]` in
`_fetch_tools_dynamic` (gateway_mcp_server.py, lines 84-87). -/
def first_line_desc (t : Tool) : String :=
  first_line (py_strip (pyOrDefault t.description "无描述"))

/-- The short-form description: the first line, truncated to 77 characters
plus `"..."` when longer than 80 (gateway_mcp_server.py, lines 87-89). -/
def short_desc (t : Tool) : String :=
  let desc := first_line_desc t
  if 80 < desc.length then py_take desc 77 ++ "..." else desc

/-- The short-form operation summary `f"{t.name}: {desc}"`
(gateway_mcp_server.py, line 90). -/
def short_form (t : Tool) : String :=
  t.name ++ ": " ++ short_desc t

/-- Per-item extraction step of `_extract_content` (identical in both
files): prefer `text`, else `str(data)`, else `str(item)`. -/
def content_item_str (item : ContentItem) : String :=
  match item.text with
  | some s => s
  | none =>
    match item.dataStr with
    | some d => d
    | none => item.strForm

/-- `_extract_content` (gateway_mcp_server.py lines 180-194, gateway.py
lines 130-144): no `content` attribute or an empty/falsy `content` yields
`str(result)`; otherwise the items' parts joined with newlines. -/
def extract_content (result : CallResult) : String :=
  match result.content with
  | none => result.strForm
  | some [] => result.strForm
  | some items => join_lines (items.map content_item_str)

/-- The outcome of one dispatch step: the string returned to the caller,
the tools cache afterwards, and how many upstream enumerate-operations
calls were performed during the step. -/
structure StepResult where
  out : String
  cache : List (String × List String)
  discoveryCalls : Nat
deriving Repr, DecidableEq

/-- The abstracted ProtocolClient behaviour during one dispatch: the
outcome the enumerate-operations call would produce, and the outcome an
invoke call would produce for a given operation name and params. -/
structure Upstream where
  list_result : Except String (List Tool)
  call_result : String → Params → Except String CallResult

/-- Header-and-bullets formatting of a cached tool list, shared by the
cache-hit and cache-miss exits of `_list_tools` in both files:
`f"📦 [{name}] 可用工具 ({len(tools)} 个):\n\n"` followed by one
`f"  • {t}"` line per entry, joined with newlines. -/
def format_tool_list (name : String) (tools : List String) : String :=
  "📦 [" ++ name ++ "] 可用工具 (" ++ toString tools.length ++ " 个):\n\n"
    ++ join_lines (tools.map (fun t => "  • " ++ t))

/-- `_list_tools` (gateway_mcp_server.py lines 141-164, gateway.py lines
98-114; the two differ only in writing the formatting expression once or
twice).  Cache hit: format the cached entries, no upstream call.  Cache
miss: perform one enumerate call; on failure return the failure string and
leave the cache untouched; on success cache the long forms and format
them. -/
def list_tools (cache : List (String × List String)) (server : ServerConfig)
    (upstream : Except String (List Tool)) : StepResult :=
  match dictLookup server.name cache with
  | some tools => ⟨format_tool_list server.name tools, cache, 0⟩
  | none =>
    match upstream with
    | Except.error e => ⟨"❌ 无法获取工具列表: " ++ e, cache, 1⟩
    | Except.ok tools =>
      ⟨format_tool_list server.name (tools.map long_form),
        dictInsert server.name (tools.map long_form) cache, 1⟩

/-- `_call_tool` (identical in both files): invoke the named operation; on
success extract the content, on failure return
`f"❌ [{server.name}] 调用 `{action}` 失败: {e}"`. -/
def call_tool (server : ServerConfig) (action : String)
    (upstream : Except String CallResult) : String :=
  match upstream with
  | Except.ok result => extract_content result
  | Except.error e =>
    "❌ [" ++ server.name ++ "] 调用 `" ++ action ++ "` 失败: " ++ e

/-- `_handle_dispatch` (identical in both files): the literal action
`"list"` routes to `_list_tools`; any other action routes to `_call_tool`
with `action` as the upstream operation name and `params` as its
argument. -/
def handle_dispatch (cache : List (String × List String))
    (server : ServerConfig) (action : String) (params : Params)
    (up : Upstream) : StepResult :=
  if action = "list" then list_tools cache server up.list_result
  else ⟨call_tool server action (up.call_result action params), cache, 0⟩

/-- The routed entry point closure `dispatch(action, params={})` registered
per subsystem: `params = none` models the caller omitting the argument, in
which case the Python default `{}` applies. -/
def dispatch_entry (cache : List (String × List String))
    (server : ServerConfig) (action : String) (params : Option Params)
    (up : Upstream) : StepResult :=
  handle_dispatch cache server action (params.getD []) up

/-- The base entry-point description shared by both files (the whole
description in gateway.py's `_build_description`, and the prefix of
gateway_mcp_server.py's). -/
def base_description (name : String) : String :=
  "与 **" ++ name ++ "** 子系统交互。\n\n**参数**:\n- `action`: 要调用的工具名 (使用 \"list\" 查看所有可用工具)\n- `params`: 工具参数 (字典)\n\n**示例**: action=\"read_file\", params=\x7b\"path\": \"/tmp/test.txt\"\x7d"

/-- Number of bulleted lines of a response: the lines (pieces between
newlines) that start with the bullet marker `"  • "`. -/
def bullet_lines (s : String) : Nat :=
  ((s.data.splitOn '\n').filter
    (fun l => ("  • ".data).isPrefixOf l)).length

/-- Spec-side preview block, following the claim's words: the first
`min(total, 30)` entries formatted as `- entry` lines, with a trailing
remainder count equal to `total - 30` exactly when the list has more than
30 entries. -/
def preview_spec (tools : List String) : String :=
  "\n\n**可用工具列表** (部分):\n"
    ++ join_lines ((tools.take (min tools.length 30)).map (fun t => "- " ++ t))
    ++ (if 30 < tools.length then
          "\n... (还有 " ++ toString (tools.length - 30)
            ++ " 个工具，请使用 list 查看完整列表)"
        else "")

/-- Gateway state: the subsystem map `self.servers`, the tools cache
`self._tools_cache`, and the CallableRegistry of registered entry points
(name ↦ description).  The registry itself is an external collaborator;
it is modelled from the spec: `register(name, description, handler)` keyed
by the entry-point name, one registered callable per name. -/
structure GatewayState where
  servers : List (String × ServerConfig)
  tools_cache : List (String × List String)
  registered : List (String × String)
deriving Repr, DecidableEq

/-- `MCPGateway.__init__`: empty subsystem map, empty cache, nothing
registered. -/
def initState : GatewayState := ⟨[], [], []⟩

namespace GMS

/-!  Definitions specific to `gateway_mcp_server.py`. -/

/-- `_build_description` (gateway_mcp_server.py lines 111-128): the base
description, plus — when the config's short-form tool list is non-empty —
a preview of the first 30 entries as `- entry` lines and, when more than
30 exist, a trailing remainder count. -/
def build_description (server : ServerConfig) : String :=
  if server.tools = [] then base_description server.name
  else
    base_description server.name ++ "\n\n**可用工具列表** (部分):\n"
      ++ join_lines ((server.tools.take 30).map (fun t => "- " ++ t))
      ++ (if 30 < server.tools.length then
            "\n... (还有 " ++ toString (server.tools.length - 30)
              ++ " 个工具，请使用 list 查看完整列表)"
          else "")

/-- The config as stored by `add_server`: on successful discovery the
`tools` field is set to the short forms (`server.tools = tools`, line 69);
on failure it is left as it was. -/
def discovered_config (server : ServerConfig)
    (discovery : Except String (List Tool)) : ServerConfig :=
  match discovery with
  | Except.ok ts => { server with tools := ts.map short_form }
  | Except.error _ => server

/-- `add_server` (gateway_mcp_server.py lines 62-77): best-effort startup
discovery (`_fetch_tools_dynamic`, which on success writes the long forms
into the tools cache and sets the config's short-form list), then insert
the config into the subsystem map and register the entry point
`use_<name>` with the synthesized description. -/
def add_server (st : GatewayState) (server : ServerConfig)
    (discovery : Except String (List Tool)) : GatewayState :=
  let server' := discovered_config server discovery
  let cache' :=
    match discovery with
    | Except.ok ts => dictInsert server.name (ts.map long_form) st.tools_cache
    | Except.error _ => st.tools_cache
  { servers := dictInsert server'.name server' st.servers,
    tools_cache := cache',
    registered := dictInsert ("use_" ++ server'.name)
      (build_description server') st.registered }

end GMS

namespace Gw

/-!  Definitions specific to `gateway.py`. -/

/-- `_build_description` (gateway.py lines 77-85): the base description
only — this variant never embeds an operation preview. -/
def build_description (name : String) : String :=
  base_description name

/-- `add_server` (gateway.py lines 61-65): no startup discovery; insert
the config into the subsystem map and register the entry point. -/
def add_server (st : GatewayState) (server : ServerConfig) : GatewayState :=
  { st with
    servers := dictInsert server.name server st.servers,
    registered := dictInsert ("use_" ++ server.name)
      (build_description server.name) st.registered }

end Gw

/-!  ## Helper lemmas -/

theorem dictLookup_dictInsert_self (k : String) (v : α)
    (m : List (String × α)) : dictLookup k (dictInsert k v m) = some v := by
  induction m with
  | nil => simp [dictInsert, dictLookup]
  | cons p rest ih =>
    obtain ⟨k', v'⟩ := p
    by_cases h : k' = k
    · simp [dictInsert, dictLookup, h]
    · simp [dictInsert, dictLookup, h, ih]

theorem dictLookup_dictInsert_ne (k k' : String) (v : α)
    (m : List (String × α)) (h : k' ≠ k) :
    dictLookup k (dictInsert k' v m) = dictLookup k m := by
  induction m with
  | nil => simp [dictInsert, dictLookup, h]
  | cons p rest ih =>
    obtain ⟨k'', v''⟩ := p
    by_cases h' : k'' = k'
    · subst h'
      simp [dictInsert, dictLookup, h]
    · simp [dictInsert, dictLookup, h', ih]

theorem join_lines_data (xs : List String) :
    (join_lines xs).data = ['\n'].intercalate (xs.map String.data) := by
  match xs with
  | [] => simp [join_lines, List.intercalate]
  | [x] => simp [join_lines, List.intercalate, List.intersperse]
  | x :: y :: xs =>
    have ih := join_lines_data (y :: xs)
    simp only [join_lines, String.data_append, ih]
    simp [List.intercalate, List.intersperse]

theorem isPrefixOf_append_left (p r : List Char) :
    p.isPrefixOf (p ++ r) = true := by
  rw [List.isPrefixOf_iff_prefix]
  exact List.prefix_append p r

theorem isPrefixOf_append_of (p l r : List Char)
    (h : p.isPrefixOf l = true) : p.isPrefixOf (l ++ r) = true := by
  rw [List.isPrefixOf_iff_prefix] at *
  exact h.trans (List.prefix_append l r)

theorem subOccurs_append_of (p s : List Char) (hp : p.isPrefixOf s = true) :
    ∀ l : List Char, subOccurs p (l ++ s) = true := by
  intro l
  induction l with
  | nil => cases s <;> simp_all [subOccurs]
  | cons c l ih => simp [subOccurs, ih]

theorem not_mem_of_subOccurs_single (c : Char) (l : List Char)
    (h : subOccurs [c] l = false) : c ∉ l := by
  induction l with
  | nil => simp
  | cons x rest ih =>
    simp only [subOccurs, List.isPrefixOf, Bool.or_eq_false_iff,
      Bool.and_eq_false_iff] at h
    intro hmem
    rcases List.mem_cons.mp hmem with h1 | h2
    · subst h1
      rcases h.1 with h' | h'
      · simp at h'
      · simp [List.isPrefixOf] at h'
    · exact ih h.2 h2

theorem list_take_min (l : List α) (n : Nat) :
    l.take (min l.length n) = l.take n := by
  rcases Nat.le_total l.length n with h | h
  · rw [min_eq_left h, List.take_of_length_le h,
      List.take_of_length_le (le_refl _)]
  · rw [min_eq_right h]

theorem bullet_lines_join (entries : List String)
    (h : ∀ t ∈ entries, occursIn "\n" t = false) :
    bullet_lines (join_lines (entries.map (fun t => "  • " ++ t)))
      = entries.length := by
  cases entries with
  | nil => decide
  | cons e es =>
    have hdata := join_lines_data ((e :: es).map (fun t => "  • " ++ t))
    rw [bullet_lines, hdata, List.splitOn_intercalate]
    · rw [List.filter_eq_self.mpr]
      · simp
      · intro l hl
        simp only [List.mem_map] at hl
        obtain ⟨t, ⟨b, hb, rfl⟩, rfl⟩ := hl
        rw [String.data_append]
        exact isPrefixOf_append_left _ _
    · intro l hl
      simp only [List.mem_map] at hl
      obtain ⟨t, ⟨b, hb, rfl⟩, rfl⟩ := hl
      rw [String.data_append]
      intro hmem
      rcases List.mem_append.mp hmem with h' | h'
      · simp [String.data] at h'
      · exact not_mem_of_subOccurs_single '\n' b.data (h b hb) h'
    · simp

theorem subOccurs_of_isPrefixOf (p s : List Char)
    (h : p.isPrefixOf s = true) : subOccurs p s = true := by
  cases s <;> simp_all [subOccurs]

theorem subOccurs_append_right (p s l : List Char)
    (h : subOccurs p s = true) : subOccurs p (l ++ s) = true := by
  induction l with
  | nil => simpa using h
  | cons c l ih => simp [subOccurs, ih]

theorem GMS.discovered_config_name (s : ServerConfig)
    (d : Except String (List Tool)) :
    (GMS.discovered_config s d).name = s.name := by
  cases d <;> simp [GMS.discovered_config]

theorem list_tools_cache_preserves (cache : List (String × List String))
    (server : ServerConfig) (up : Except String (List Tool)) (k : String)
    (v : List String) (h : dictLookup k cache = some v) :
    dictLookup k ((list_tools cache server up).cache) = some v := by
  unfold list_tools
  cases hc : dictLookup server.name cache with
  | some tools => simpa using h
  | none =>
    cases up with
    | error e => simpa using h
    | ok ts =>
      simp only
      by_cases hk : server.name = k
      · subst hk
        rw [h] at hc
        exact absurd hc (by simp)
      · rw [dictLookup_dictInsert_ne k server.name _ _ hk]
        exact h

/-!  ## Claim theorems -/

/-- C2: for every subsystem config, action string and params map, dispatch
with the literal action `"list"` returns the list-operations handler's
result for that subsystem; dispatch with any other action returns the
invoke handler's result, treating the action as the upstream operation
name and the params as its structured argument (no other action string is
treated specially); and params defaults to the empty map when omitted. -/
theorem claim_C2 (cache : List (String × List String)) (server : ServerConfig)
    (action : String) (params : Params) (up : Upstream) :
    (action = "list" →
      handle_dispatch cache server action params up
        = list_tools cache server up.list_result) ∧
    (action ≠ "list" →
      handle_dispatch cache server action params up
        = ⟨call_tool server action (up.call_result action params), cache, 0⟩) ∧
    dispatch_entry cache server action none up
      = handle_dispatch cache server action [] up := by
  refine ⟨fun h => ?_, fun h => ?_, rfl⟩
  · simp [handle_dispatch, h]
  · simp [handle_dispatch, h]

/-- Witness for C2 at concrete inputs: the `"list"` action routes to the
list handler and `"read_file"` routes to the invoke handler. -/
theorem claim_C2_witness :
    handle_dispatch [] ⟨"srv", "cmd", [], [], []⟩ "list" []
        ⟨Except.error "x", fun _ _ => Except.error "x"⟩
      = list_tools [] ⟨"srv", "cmd", [], [], []⟩ (Except.error "x")
    ∧ handle_dispatch [] ⟨"srv", "cmd", [], [], []⟩ "read_file" []
        ⟨Except.error "x", fun _ _ => Except.error "x"⟩
      = ⟨call_tool ⟨"srv", "cmd", [], [], []⟩ "read_file" (Except.error "x"),
          [], 0⟩ :=
  ⟨(claim_C2 [] ⟨"srv", "cmd", [], [], []⟩ "list" []
      ⟨Except.error "x", fun _ _ => Except.error "x"⟩).1 rfl,
   (claim_C2 [] ⟨"srv", "cmd", [], [], []⟩ "read_file" []
      ⟨Except.error "x", fun _ _ => Except.error "x"⟩).2.1 (by decide)⟩

/-- C3: `extract` returns a string for every result (it is a total
function): with no content items it returns the result's generic string
form; otherwise each item maps to its text field if present, else its
stringified data field, else its generic string form, joined with
newlines in item order. -/
theorem claim_C3 (r : CallResult) :
    ((r.content = none ∨ r.content = some []) →
      extract_content r = r.strForm) ∧
    (∀ items, r.content = some items → items ≠ [] →
      extract_content r = join_lines (items.map content_item_str)) ∧
    (∀ item : ContentItem,
      (∀ s, item.text = some s → content_item_str item = s) ∧
      (item.text = none → ∀ d, item.dataStr = some d →
        content_item_str item = d) ∧
      (item.text = none → item.dataStr = none →
        content_item_str item = item.strForm)) := by
  refine ⟨fun h => ?_, fun items h hne => ?_,
    fun item => ⟨fun s hs => ?_, fun ht d hd => ?_, fun ht hd => ?_⟩⟩
  · rcases h with h | h <;> simp [extract_content, h]
  · cases items with
    | nil => exact absurd rfl hne
    | cons a as => simp [extract_content, h]
  · simp [content_item_str, hs]
  · simp [content_item_str, ht, hd]
  · simp [content_item_str, ht, hd]

/-- Witness for C3 at concrete results: an attribute-less result, a
three-item result exercising the text / data / generic fallbacks. -/
theorem claim_C3_witness :
    extract_content ⟨none, "raw"⟩ = "raw"
    ∧ extract_content
        ⟨some [⟨some "hello", none, "i1"⟩, ⟨none, some "42", "i2"⟩,
          ⟨none, none, "i3"⟩], "raw"⟩
      = join_lines (([⟨some "hello", none, "i1"⟩, ⟨none, some "42", "i2"⟩,
          ⟨none, none, "i3"⟩] : List ContentItem).map content_item_str)
    ∧ content_item_str ⟨some "hello", none, "i1"⟩ = "hello" :=
  ⟨(claim_C3 ⟨none, "raw"⟩).1 (Or.inl rfl),
   (claim_C3 ⟨some [⟨some "hello", none, "i1"⟩, ⟨none, some "42", "i2"⟩,
      ⟨none, none, "i3"⟩], "raw"⟩).2.1 _ rfl (by decide),
   ((claim_C3 ⟨none, "raw"⟩).2.2 ⟨some "hello", none, "i1"⟩).1 "hello" rfl⟩

/-- C4: the short-form description (first line of the upstream
description, default text when absent) is truncated to its first 77
characters plus the ellipsis marker exactly when longer than 80
characters, while the long-form entry written to the tool cache is never
truncated. -/
theorem claim_C4 (t : Tool) :
    (80 < (first_line_desc t).length →
      short_form t
        = t.name ++ ": " ++ (py_take (first_line_desc t) 77 ++ "...")) ∧
    ((first_line_desc t).length ≤ 80 →
      short_form t = t.name ++ ": " ++ first_line_desc t) ∧
    long_form t = t.name ++ ": " ++ pyOrDefault t.description "无描述" := by
  refine ⟨fun h => ?_, fun h => ?_, rfl⟩
  · simp [short_form, short_desc, h]
  · simp [short_form, short_desc, Nat.not_lt.mpr h]

/-- Witness for C4 at a 90-character description: it is truncated in the
short form and kept whole in the long form. -/
theorem claim_C4_witness :
    80 < (first_line_desc ⟨"op",
      some "aaaaaaaaaaaaaaaaaaaaaaaaaaaaaaaaaaaaaaaaaaaaaaaaaaaaaaaaaaaaaaaaaaaaaaaaaaaaaaaaaaaaaaaa"⟩).length
    ∧ short_form ⟨"op",
        some "aaaaaaaaaaaaaaaaaaaaaaaaaaaaaaaaaaaaaaaaaaaaaaaaaaaaaaaaaaaaaaaaaaaaaaaaaaaaaaaaaaaaaaaa"⟩
      = "op" ++ ": "
        ++ (py_take (first_line_desc ⟨"op",
              some "aaaaaaaaaaaaaaaaaaaaaaaaaaaaaaaaaaaaaaaaaaaaaaaaaaaaaaaaaaaaaaaaaaaaaaaaaaaaaaaaaaaaaaaa"⟩) 77
            ++ "...") :=
  ⟨by decide,
   (claim_C4 ⟨"op",
      some "aaaaaaaaaaaaaaaaaaaaaaaaaaaaaaaaaaaaaaaaaaaaaaaaaaaaaaaaaaaaaaaaaaaaaaaaaaaaaaaaaaaaaaaa"⟩).1
     (by decide)⟩

/-- C10: the `"list"` action ignores its params argument — for any two
params maps the dispatch returns the same string and leaves the cache in
the same state. -/
theorem claim_C10 (cache : List (String × List String))
    (server : ServerConfig) (p1 p2 : Params) (up : Upstream) :
    handle_dispatch cache server "list" p1 up
      = handle_dispatch cache server "list" p2 up := by
  simp [handle_dispatch]

/-- C5: the synthesized entry-point description contains the operation
preview block exactly when the config's short-form operation list is
non-empty; when present, the preview lists the first `min(total, 30)`
entries as `- entry` lines and appends a trailing remainder count equal to
`total - 30` exactly when the list has more than 30 entries
(`preview_spec` phrases the block in those terms). -/
theorem claim_C5 (server : ServerConfig) :
    (server.tools = [] →
      GMS.build_description server = base_description server.name) ∧
    (server.tools ≠ [] →
      GMS.build_description server
        = base_description server.name ++ preview_spec server.tools) := by
  refine ⟨fun h => ?_, fun h => ?_⟩
  · simp [GMS.build_description, h]
  · simp only [GMS.build_description, preview_spec, if_neg h, list_take_min]
    simp [String.append_assoc]

/-- Witness for C5: an empty config yields the bare description; a
one-entry config appends the preview block. -/
theorem claim_C5_witness :
    GMS.build_description ⟨"s", "c", [], [], []⟩ = base_description "s"
    ∧ GMS.build_description ⟨"s", "c", [], [], ["a: d"]⟩
        = base_description "s" ++ preview_spec ["a: d"] :=
  ⟨(claim_C5 ⟨"s", "c", [], [], []⟩).1 rfl,
   (claim_C5 ⟨"s", "c", [], [], ["a: d"]⟩).2 (by decide)⟩

/-- Counterexample to C1 as stated: a ProtocolClient failure during a
`list` dispatch yields `"❌ 无法获取工具列表: boom"`, which does not carry
the subsystem name `"subsysA"`. -/
theorem claim_C1_counterexample :
    occursIn "subsysA"
      ((handle_dispatch [] ⟨"subsysA", "cmd", [], [], []⟩ "list" []
        ⟨Except.error "boom", fun _ _ => Except.error "boom"⟩).out)
      = false := by
  decide

/-- C1 (amended): every ProtocolClient failure during a `list` or invoke
dispatch returns (rather than raises) a string beginning with the failure
marker '❌'; the invoke failure string additionally carries the subsystem
name and the attempted action name, while the list failure string carries
only the marker and the upstream message.  No exception propagates: in
this embedding every dispatch path is a total function into strings. -/
theorem claim_C1 (cache : List (String × List String)) (server : ServerConfig)
    (action : String) (params : Params) (up : Upstream) (e : String) :
    (up.list_result = Except.error e → dictLookup server.name cache = none →
      (handle_dispatch cache server "list" params up).out
          = "❌ 无法获取工具列表: " ++ e
        ∧ str_begins ((handle_dispatch cache server "list" params up).out)
            "❌" = true) ∧
    (action ≠ "list" → up.call_result action params = Except.error e →
      (handle_dispatch cache server action params up).out
          = "❌ [" ++ server.name ++ "] 调用 `" ++ action ++ "` 失败: " ++ e
        ∧ str_begins ((handle_dispatch cache server action params up).out)
            "❌" = true
        ∧ occursIn server.name
            ((handle_dispatch cache server action params up).out) = true
        ∧ occursIn action
            ((handle_dispatch cache server action params up).out) = true) := by
  constructor
  · intro hl hc
    have hout : (handle_dispatch cache server "list" params up).out
        = "❌ 无法获取工具列表: " ++ e := by
      simp [handle_dispatch, list_tools, hc, hl]
    refine ⟨hout, ?_⟩
    rw [hout, str_begins, String.data_append]
    exact isPrefixOf_append_of _ _ _ (by decide)
  · intro ha hcall
    have hout : (handle_dispatch cache server action params up).out
        = "❌ [" ++ server.name ++ "] 调用 `" ++ action ++ "` 失败: " ++ e := by
      simp [handle_dispatch, ha, call_tool, hcall]
    have hdata : ((handle_dispatch cache server action params up).out).data
        = "❌ [".data ++ (server.name.data ++ ("] 调用 `".data
            ++ (action.data ++ ("` 失败: ".data ++ e.data)))) := by
      rw [hout]
      simp [String.data_append]
    refine ⟨hout, ?_, ?_, ?_⟩
    · rw [str_begins, hdata]
      exact isPrefixOf_append_of _ _ _ (by decide)
    · rw [occursIn, hdata]
      exact subOccurs_append_of _ _ (isPrefixOf_append_left _ _) _
    · rw [occursIn, hdata]
      refine subOccurs_append_right _ _ _ ?_
      refine subOccurs_append_right _ _ _ ?_
      refine subOccurs_append_right _ _ _ ?_
      exact subOccurs_of_isPrefixOf _ _ (isPrefixOf_append_left _ _)

/-- Witness for C1 (amended) at concrete failures: a list failure yields
the marked message, and an invoke failure's string carries the subsystem
name. -/
theorem claim_C1_witness :
    (handle_dispatch [] ⟨"srv", "cmd", [], [], []⟩ "list" []
        ⟨Except.error "boom", fun _ _ => Except.error "boom"⟩).out
      = "❌ 无法获取工具列表: " ++ "boom"
    ∧ occursIn "srv"
        ((handle_dispatch [] ⟨"srv", "cmd", [], [], []⟩ "doit" []
          ⟨Except.error "boom", fun _ _ => Except.error "boom"⟩).out)
        = true :=
  ⟨((claim_C1 [] ⟨"srv", "cmd", [], [], []⟩ "doit" []
      ⟨Except.error "boom", fun _ _ => Except.error "boom"⟩ "boom").1
      rfl rfl).1,
   ((claim_C1 [] ⟨"srv", "cmd", [], [], []⟩ "doit" []
      ⟨Except.error "boom", fun _ _ => Except.error "boom"⟩ "boom").2
      (by decide) rfl).2.2.1⟩

/-- Counterexample to C6 as stated: from an empty cache, two consecutive
`list` dispatches whose discovery calls both fail perform two discovery
calls, not at most one. -/
theorem claim_C6_counterexample :
    ¬ ((handle_dispatch [] ⟨"srv", "cmd", [], [], []⟩ "list" []
          ⟨Except.error "boom", fun _ _ => Except.error "boom"⟩).discoveryCalls
        + (handle_dispatch
            (handle_dispatch [] ⟨"srv", "cmd", [], [], []⟩ "list" []
              ⟨Except.error "boom", fun _ _ => Except.error "boom"⟩).cache
            ⟨"srv", "cmd", [], [], []⟩ "list" []
            ⟨Except.error "boom", fun _ _ => Except.error "boom"⟩).discoveryCalls
        ≤ 1) := by
  decide

/-- C6 (amended): once the cache holds an entry for a subsystem's name,
every `list` dispatch is answered from the cache with no discovery call,
and no dispatch ever invalidates or removes a cache entry; hence two
consecutive `list` dispatches trigger at most one discovery call whenever
the subsystem is already cached or the first dispatch's discovery
succeeds (a failed discovery caches nothing, so each failing dispatch
performs its own discovery call). -/
theorem claim_C6 (cache : List (String × List String)) (server : ServerConfig)
    (p1 p2 : Params) (up1 up2 : Upstream) :
    (∀ tools, dictLookup server.name cache = some tools →
      handle_dispatch cache server "list" p1 up1
        = ⟨format_tool_list server.name tools, cache, 0⟩) ∧
    (∀ k v action params up, dictLookup k cache = some v →
      dictLookup k ((handle_dispatch cache server action params up).cache)
        = some v) ∧
    (dictLookup server.name cache ≠ none
        ∨ (∃ ts, up1.list_result = Except.ok ts) →
      (handle_dispatch cache server "list" p1 up1).discoveryCalls
        + (handle_dispatch (handle_dispatch cache server "list" p1 up1).cache
            server "list" p2 up2).discoveryCalls ≤ 1) := by
  refine ⟨fun tools h => ?_, fun k v action params up h => ?_, fun h => ?_⟩
  · simp [handle_dispatch, list_tools, h]
  · by_cases ha : action = "list"
    · subst ha
      simp only [handle_dispatch, if_pos rfl]
      exact list_tools_cache_preserves cache server up.list_result k v h
    · simpa [handle_dispatch, ha] using h
  · cases hc : dictLookup server.name cache with
    | some tools => simp [handle_dispatch, list_tools, hc]
    | none =>
      rcases h with h | ⟨ts, hts⟩
      · exact absurd hc h
      · simp [handle_dispatch, list_tools, hc, hts, dictLookup_dictInsert_self]

/-- Witness for C6 (amended): with `"srv"` cached, a dispatch is answered
from the cache, the entry survives an invoke dispatch, and two
consecutive `list` dispatches perform no discovery call. -/
theorem claim_C6_witness :
    handle_dispatch [("srv", ["a: d"])] ⟨"srv", "cmd", [], [], []⟩ "list" []
        ⟨Except.error "u", fun _ _ => Except.error "u"⟩
      = ⟨format_tool_list "srv" ["a: d"], [("srv", ["a: d"])], 0⟩
    ∧ dictLookup "srv"
        ((handle_dispatch [("srv", ["a: d"])] ⟨"srv", "cmd", [], [], []⟩
          "doit" [] ⟨Except.error "u", fun _ _ => Except.error "u"⟩).cache)
        = some ["a: d"]
    ∧ (handle_dispatch [("srv", ["a: d"])] ⟨"srv", "cmd", [], [], []⟩ "list"
          [] ⟨Except.error "u", fun _ _ => Except.error "u"⟩).discoveryCalls
        + (handle_dispatch
            (handle_dispatch [("srv", ["a: d"])] ⟨"srv", "cmd", [], [], []⟩
              "list" [] ⟨Except.error "u", fun _ _ => Except.error "u"⟩).cache
            ⟨"srv", "cmd", [], [], []⟩ "list" []
            ⟨Except.error "u", fun _ _ => Except.error "u"⟩).discoveryCalls
        ≤ 1 :=
  ⟨(claim_C6 [("srv", ["a: d"])] ⟨"srv", "cmd", [], [], []⟩ [] []
      ⟨Except.error "u", fun _ _ => Except.error "u"⟩
      ⟨Except.error "u", fun _ _ => Except.error "u"⟩).1 ["a: d"] rfl,
   (claim_C6 [("srv", ["a: d"])] ⟨"srv", "cmd", [], [], []⟩ [] []
      ⟨Except.error "u", fun _ _ => Except.error "u"⟩
      ⟨Except.error "u", fun _ _ => Except.error "u"⟩).2.1 "srv" ["a: d"]
      "doit" [] ⟨Except.error "u", fun _ _ => Except.error "u"⟩ rfl,
   (claim_C6 [("srv", ["a: d"])] ⟨"srv", "cmd", [], [], []⟩ [] []
      ⟨Except.error "u", fun _ _ => Except.error "u"⟩
      ⟨Except.error "u", fun _ _ => Except.error "u"⟩).2.2
      (Or.inl (by decide))⟩

/-- Counterexample to C7 as stated: a successful `list` dispatch for
subsystem `"srv"` with one cached entry that embeds a newline and a bullet
marker returns a string that does not begin with the subsystem name and
whose tool count (1) differs from its number of bulleted lines (2). -/
theorem claim_C7_counterexample :
    (handle_dispatch [("srv", ["a: x\n  • fake"])] ⟨"srv", "cmd", [], [], []⟩
        "list" [] ⟨Except.error "u", fun _ _ => Except.error "u"⟩).out
      = "📦 [srv] 可用工具 (1 个):\n\n  • a: x\n  • fake"
    ∧ str_begins
        ((handle_dispatch [("srv", ["a: x\n  • fake"])]
          ⟨"srv", "cmd", [], [], []⟩ "list" []
          ⟨Except.error "u", fun _ _ => Except.error "u"⟩).out) "srv" = false
    ∧ bullet_lines
        ((handle_dispatch [("srv", ["a: x\n  • fake"])]
          ⟨"srv", "cmd", [], [], []⟩ "list" []
          ⟨Except.error "u", fun _ _ => Except.error "u"⟩).out) = 2 := by
  decide

/-- C7 (amended): every successful `list` dispatch returns the formatted
tool list, which begins with `"📦 ["` followed by the subsystem name and
carries a tool count equal to the number of entries it renders as
bulleted lines; that count equals the number of bulleted lines of the
body whenever no cached entry itself embeds a newline. -/
theorem claim_C7 (cache : List (String × List String)) (server : ServerConfig)
    (p : Params) (up : Upstream) :
    (∀ tools, dictLookup server.name cache = some tools →
      (handle_dispatch cache server "list" p up).out
        = format_tool_list server.name tools) ∧
    (∀ ts, dictLookup server.name cache = none →
      up.list_result = Except.ok ts →
      (handle_dispatch cache server "list" p up).out
        = format_tool_list server.name (ts.map long_form)) ∧
    (∀ name entries,
      format_tool_list name entries
          = "📦 [" ++ name ++ "] 可用工具 (" ++ toString entries.length
              ++ " 个):\n\n" ++ join_lines (entries.map (fun t => "  • " ++ t))
        ∧ str_begins (format_tool_list name entries) ("📦 [" ++ name) = true
        ∧ ((∀ t ∈ entries, occursIn "\n" t = false) →
            bullet_lines (join_lines (entries.map (fun t => "  • " ++ t)))
              = entries.length)) := by
  refine ⟨fun tools h => ?_, fun ts hc hts => ?_,
    fun name entries => ⟨rfl, ?_, bullet_lines_join entries⟩⟩
  · simp [handle_dispatch, list_tools, h]
  · simp [handle_dispatch, list_tools, hc, hts]
  · simp only [format_tool_list, str_begins, String.data_append]
    exact isPrefixOf_append_of _ _ _ (isPrefixOf_append_of _ _ _
      (isPrefixOf_append_of _ _ _ (isPrefixOf_append_left _ _)))

/-- Witness for C7 (amended) at a one-entry cache. -/
theorem claim_C7_witness :
    (handle_dispatch [("srv", ["a: x"])] ⟨"srv", "cmd", [], [], []⟩ "list" []
        ⟨Except.error "u", fun _ _ => Except.error "u"⟩).out
      = format_tool_list "srv" ["a: x"]
    ∧ str_begins (format_tool_list "srv" ["a: x"]) ("📦 [" ++ "srv") = true
    ∧ bullet_lines (join_lines ((["a: x"]).map (fun t => "  • " ++ t))) = 1 :=
  ⟨(claim_C7 [("srv", ["a: x"])] ⟨"srv", "cmd", [], [], []⟩ []
      ⟨Except.error "u", fun _ _ => Except.error "u"⟩).1 ["a: x"] rfl,
   ((claim_C7 [("srv", ["a: x"])] ⟨"srv", "cmd", [], [], []⟩ []
      ⟨Except.error "u", fun _ _ => Except.error "u"⟩).2.2 "srv"
      ["a: x"]).2.1,
   ((claim_C7 [("srv", ["a: x"])] ⟨"srv", "cmd", [], [], []⟩ []
      ⟨Except.error "u", fun _ _ => Except.error "u"⟩).2.2 "srv"
      ["a: x"]).2.2 (by decide)⟩

/-- C8: after registering two subsystem configs under the same name (in
either file's gateway), the subsystem map holds exactly one entry for
that name — the second config (in `gateway_mcp_server.py` with its
`tools` field set by that registration's discovery) — and the registry
holds exactly one entry point named `use_<name>`.  Registration is a
total function: no duplicate-name error is raised. -/
theorem claim_C8 (s1 s2 : ServerConfig) (d1 d2 : Except String (List Tool))
    (h : s1.name = s2.name) :
    countKey s2.name
        (GMS.add_server (GMS.add_server initState s1 d1) s2 d2).servers = 1
    ∧ dictLookup s2.name
        (GMS.add_server (GMS.add_server initState s1 d1) s2 d2).servers
        = some (GMS.discovered_config s2 d2)
    ∧ countKey ("use_" ++ s2.name)
        (GMS.add_server (GMS.add_server initState s1 d1) s2 d2).registered = 1
    ∧ countKey s2.name
        (Gw.add_server (Gw.add_server initState s1) s2).servers = 1
    ∧ dictLookup s2.name
        (Gw.add_server (Gw.add_server initState s1) s2).servers = some s2
    ∧ countKey ("use_" ++ s2.name)
        (Gw.add_server (Gw.add_server initState s1) s2).registered = 1 := by
  refine ⟨?_, ?_, ?_, ?_, ?_, ?_⟩ <;>
    simp [GMS.add_server, Gw.add_server, initState, dictInsert, dictLookup,
      countKey, GMS.discovered_config_name, h]

/-- Witness for C8: two configs both named `"dup"`. -/
theorem claim_C8_witness :
    countKey "dup"
        (GMS.add_server
          (GMS.add_server initState ⟨"dup", "c1", [], [], []⟩
            (Except.error "x"))
          ⟨"dup", "c2", [], [], []⟩ (Except.error "x")).servers = 1
    ∧ dictLookup "dup"
        (GMS.add_server
          (GMS.add_server initState ⟨"dup", "c1", [], [], []⟩
            (Except.error "x"))
          ⟨"dup", "c2", [], [], []⟩ (Except.error "x")).servers
        = some (GMS.discovered_config ⟨"dup", "c2", [], [], []⟩
            (Except.error "x"))
    ∧ countKey ("use_" ++ "dup")
        (GMS.add_server
          (GMS.add_server initState ⟨"dup", "c1", [], [], []⟩
            (Except.error "x"))
          ⟨"dup", "c2", [], [], []⟩ (Except.error "x")).registered = 1
    ∧ countKey "dup"
        (Gw.add_server (Gw.add_server initState ⟨"dup", "c1", [], [], []⟩)
          ⟨"dup", "c2", [], [], []⟩).servers = 1
    ∧ dictLookup "dup"
        (Gw.add_server (Gw.add_server initState ⟨"dup", "c1", [], [], []⟩)
          ⟨"dup", "c2", [], [], []⟩).servers
        = some ⟨"dup", "c2", [], [], []⟩
    ∧ countKey ("use_" ++ "dup")
        (Gw.add_server (Gw.add_server initState ⟨"dup", "c1", [], [], []⟩)
          ⟨"dup", "c2", [], [], []⟩).registered = 1 :=
  claim_C8 ⟨"dup", "c1", [], [], []⟩ ⟨"dup", "c2", [], [], []⟩
    (Except.error "x") (Except.error "x") rfl

/-- C9: a failed enumerate call during a cache-miss `list` dispatch leaves
the tool cache unchanged — no entry is written for the subsystem's name —
so a later `list` dispatch performs a discovery call again; likewise a
failed startup discovery leaves the stored config's short-form operation
list empty and writes nothing to the cache. -/
theorem claim_C9 (cache : List (String × List String)) (server : ServerConfig)
    (e : String) (up2 : Except String (List Tool)) (st : GatewayState) :
    (dictLookup server.name cache = none →
      (list_tools cache server (Except.error e)).cache = cache
      ∧ dictLookup server.name
          ((list_tools cache server (Except.error e)).cache) = none
      ∧ (list_tools cache server (Except.error e)).discoveryCalls = 1
      ∧ (list_tools ((list_tools cache server (Except.error e)).cache)
          server up2).discoveryCalls = 1) ∧
    (server.tools = [] →
      (∀ cfg, dictLookup server.name
          (GMS.add_server st server (Except.error e)).servers = some cfg →
        cfg.tools = [])
      ∧ (GMS.add_server st server (Except.error e)).tools_cache
          = st.tools_cache) := by
  refine ⟨fun hc => ⟨?_, ?_, ?_, ?_⟩, fun ht => ⟨fun cfg hcfg => ?_, ?_⟩⟩
  · simp [list_tools, hc]
  · simp [list_tools, hc]
  · simp [list_tools, hc]
  · cases up2 <;> simp [list_tools, hc]
  · simp only [GMS.add_server, GMS.discovered_config] at hcfg
    rw [dictLookup_dictInsert_self] at hcfg
    injection hcfg with h'
    subst h'
    exact ht
  · simp [GMS.add_server]

/-- Witness for C9: a concrete failing discovery against an empty cache
and a fresh gateway. -/
theorem claim_C9_witness :
    (list_tools [] ⟨"srv", "cmd", [], [], []⟩ (Except.error "boom")).cache = []
    ∧ (list_tools [] ⟨"srv", "cmd", [], [], []⟩
        (Except.error "boom")).discoveryCalls = 1
    ∧ (GMS.add_server initState ⟨"srv", "cmd", [], [], []⟩
        (Except.error "boom")).tools_cache = initState.tools_cache :=
  ⟨((claim_C9 [] ⟨"srv", "cmd", [], [], []⟩ "boom" (Except.error "z")
      initState).1 rfl).1,
   ((claim_C9 [] ⟨"srv", "cmd", [], [], []⟩ "boom" (Except.error "z")
      initState).1 rfl).2.2.1,
   ((claim_C9 [] ⟨"srv", "cmd", [], [], []⟩ "boom" (Except.error "z")
      initState).2 rfl).2⟩
